import Mathlib

/-!
# Verification of the timetabling engine's validator, solver dispatch and
# conflict-resolution engine

Shallow embedding of `src/ai-service/services/csp_solver.py` and
`src/ai-service/services/conflict_analyzer.py` (together with the data model
of `src/ai-service/models/optimization_models.py`).

Conventions of the embedding:
* Python floats are modelled as rationals (`ℚ`); every constant appearing in
  the code (0.4, 0.15, …) is exact in both worlds.
* A `datetime` session start time is represented by the only component the
  code ever reads, its hour (`start_hour`).
* Heterogeneous conflict dictionaries (`Dict[str, Any]`) are modelled by one
  record type `ConflictDict` with optional fields, one per key the code
  reads or writes.
* Python dicts used as sets of `(resource, time_key)` pairs are modelled by
  flat lists of pairs; the only operations performed on them are membership
  tests and inserts, for which the two representations agree.  The
  `f"{day}_{hour}"` time-key string is modelled by the pair `(day, hour)`;
  the Python key is injective in `(day, hour)`, so equality tests agree.
-/

namespace Timetiba

/-- `models/optimization_models.py`, `ScheduledSessionModel`: the assignment
result for one session.  `start_hour` stands for `start_time.hour`, the only
part of `start_time` the validator and analyzer read; `end_time` is never
read and is omitted. -/
structure ScheduledSessionModel where
  id : String
  course_id : String
  lecturer_id : String
  venue_id : String
  student_groups : List String
  start_hour : Nat
  day_of_week : Nat
deriving DecidableEq, Repr

/-- One heterogeneous conflict/violation dictionary (`Dict[str, Any]`), with
one optional field per key read or written anywhere in the embedded code. -/
structure ConflictDict where
  type : Option String
  message : Option String
  suggestion : Option String
  venue_id : Option String
  lecturer_id : Option String
  time : Option (Nat × Nat)
  sessions : List String
  affected_entities : List String
  session_ids : List String
deriving DecidableEq, Repr

/-- An all-`none` conflict dictionary, to be updated field by field. -/
def ConflictDict.empty : ConflictDict :=
  ⟨none, none, none, none, none, none, [], [], []⟩

/-- `models/optimization_models.py`, `SolutionModel`.  `metadata` values are
rendered as strings. -/
structure SolutionModel where
  sessions : List ScheduledSessionModel
  score : ℚ
  is_feasible : Bool
  conflicts : List ConflictDict
  metadata : List (String × String)
deriving DecidableEq, Repr

/-- `models/optimization_models.py`, `ValidationResult`. -/
structure ValidationResult where
  is_valid : Bool
  score : ℚ
  conflicts : List ConflictDict
  constraint_violations : List ConflictDict
deriving DecidableEq, Repr

/-! ## Generic helpers -/

/-- `min(1.0, max(0.0, x))`, the clamping idiom used throughout the code. -/
def clamp01 (x : ℚ) : ℚ := min 1 (max 0 x)

/-- Helper of `firstDedup`: drops the elements already in `seen`, keeping
the first occurrence of each new element. -/
def firstDedupAux {α : Type} [DecidableEq α] (seen : List α) :
    List α → List α
  | [] => []
  | a :: l =>
      if a ∈ seen then firstDedupAux seen l
      else a :: firstDedupAux (a :: seen) l

/-- Deduplication keeping the first occurrence of each element — the
iteration order of a Python dict/`Counter`/`defaultdict` keyed by the
elements in encounter order.  (Mathlib's `List.dedup` keeps last
occurrences, which is the wrong order.) -/
def firstDedup {α : Type} [DecidableEq α] (l : List α) : List α :=
  firstDedupAux [] l

theorem mem_firstDedupAux {α : Type} [DecidableEq α] :
    ∀ (l seen : List α) (x : α),
      x ∈ firstDedupAux seen l ↔ x ∈ l ∧ x ∉ seen := by
  intro l
  induction l with
  | nil => intro seen x; simp [firstDedupAux]
  | cons a l ih =>
    intro seen x
    rw [firstDedupAux]
    by_cases ha : a ∈ seen
    · rw [if_pos ha, ih]
      constructor
      · rintro ⟨hx, hs⟩; exact ⟨List.mem_cons_of_mem _ hx, hs⟩
      · rintro ⟨hx, hs⟩
        rcases List.mem_cons.mp hx with rfl | hx
        · exact absurd ha hs
        · exact ⟨hx, hs⟩
    · rw [if_neg ha, List.mem_cons, ih]
      by_cases hxa : x = a
      · subst hxa; simp [ha]
      · simp [hxa, List.mem_cons]

theorem mem_firstDedup {α : Type} [DecidableEq α] (l : List α) (x : α) :
    x ∈ firstDedup l ↔ x ∈ l := by
  rw [firstDedup, mem_firstDedupAux]
  simp

/-! ## Schedule Validator (`csp_solver.py` lines 629–839)

`_validate_hard_constraints` scans the sessions once, keeping per-venue and
per-lecturer sets of already seen time keys; for each session it performs a
venue double-booking check followed by a lecturer double-booking check, each
counting one total check and, when it passes, one passed check. -/

/-- State threaded through the `_validate_hard_constraints` scan.  The two
booking dicts of sets are flattened to lists of (resource id, day, hour)
triples (only membership tests and inserts are performed on them). -/
structure HCState where
  violations : List ConflictDict
  totalChecks : Nat
  passedChecks : Nat
  venueBookings : List (String × Nat × Nat)
  lecturerBookings : List (String × Nat × Nat)
deriving Repr

/-- The violation record appended on a venue double booking. -/
def venueViolation (s : ScheduledSessionModel) : ConflictDict :=
  { ConflictDict.empty with
      type := some "venue_double_booking"
      venue_id := some s.venue_id
      time := some (s.day_of_week, s.start_hour)
      sessions := [s.id] }

/-- The violation record appended on a lecturer double booking. -/
def lecturerViolation (s : ScheduledSessionModel) : ConflictDict :=
  { ConflictDict.empty with
      type := some "lecturer_double_booking"
      lecturer_id := some s.lecturer_id
      time := some (s.day_of_week, s.start_hour)
      sessions := [s.id] }

/-- One iteration of the session loop of `_validate_hard_constraints`
(lines 685–718): venue check then lecturer check. -/
def hcStep (st : HCState) (s : ScheduledSessionModel) : HCState :=
  let key := (s.day_of_week, s.start_hour)
  let st1 : HCState :=
    if (s.venue_id, key) ∈ st.venueBookings then
      ⟨st.violations ++ [venueViolation s], st.totalChecks + 1, st.passedChecks,
        st.venueBookings, st.lecturerBookings⟩
    else
      ⟨st.violations, st.totalChecks + 1, st.passedChecks + 1,
        st.venueBookings ++ [(s.venue_id, key)], st.lecturerBookings⟩
  if (s.lecturer_id, key) ∈ st1.lecturerBookings then
    ⟨st1.violations ++ [lecturerViolation s], st1.totalChecks + 1, st1.passedChecks,
      st1.venueBookings, st1.lecturerBookings⟩
  else
    ⟨st1.violations, st1.totalChecks + 1, st1.passedChecks + 1,
      st1.venueBookings, st1.lecturerBookings ++ [(s.lecturer_id, key)]⟩

/-- `CSPSolver._validate_hard_constraints` (lines 673–721): returns the
hard-constraint score (`passed/total`, `1.0` when no checks ran) and the
violation list. -/
def validate_hard_constraints (sessions : List ScheduledSessionModel) :
    ℚ × List ConflictDict :=
  let st := sessions.foldl hcStep ⟨[], 0, 0, [], []⟩
  (if 0 < st.totalChecks then (st.passedChecks : ℚ) / (st.totalChecks : ℚ) else 1,
   st.violations)

/-- `CSPSolver._calculate_venue_utilization_score` (lines 723–748). -/
def venue_utilization_score (sol : SolutionModel) : ℚ :=
  if sol.sessions = [] then 0
  else
    let venueIds := firstDedup (sol.sessions.map (·.venue_id))
    let counts := venueIds.map fun v =>
      ((sol.sessions.filter fun s => decide (s.venue_id = v)).length : ℚ)
    let total : ℚ := (sol.sessions.length : ℚ)
    let numVenues : ℚ := (venueIds.length : ℚ)
    let ideal := total / numVenues
    let variance := (counts.map fun c => |c - ideal|).sum / numVenues
    max 0 (1 - variance / ideal)

/-- `CSPSolver._calculate_lecturer_satisfaction_score` (lines 750–773). -/
def lecturer_satisfaction_score (sol : SolutionModel) : ℚ :=
  if sol.sessions = [] then 1
  else
    let lecturerIds := firstDedup (sol.sessions.map (·.lecturer_id))
    let workloads := lecturerIds.map fun l =>
      ((sol.sessions.filter fun s => decide (s.lecturer_id = l)).length : ℚ)
    let avg := workloads.sum / (workloads.length : ℚ)
    let variance := (workloads.map fun w => |w - avg|).sum / (workloads.length : ℚ)
    let maxVariance := if 0 < avg then avg else 1
    max 0 (1 - variance / maxVariance)

/-- Sum of `hours[i+1] - hours[i] - 1` over consecutive pairs of a (sorted)
hour list — the gap count of `_calculate_student_convenience_score`.
Computed in `ℤ`, exactly as Python's unbounded ints. -/
def gapSum : List Nat → ℤ
  | [] => 0
  | [_] => 0
  | a :: b :: rest => ((b : ℤ) - (a : ℤ) - 1) + gapSum (b :: rest)

/-- The hours at which group `g` meets on day `d`, in session order (the
order in which `_calculate_student_convenience_score` appends them). -/
def groupDayHours (sessions : List ScheduledSessionModel) (g : String) (d : Nat) :
    List Nat :=
  (sessions.filter fun s => decide (s.day_of_week = d ∧ g ∈ s.student_groups)).map
    (·.start_hour)

/-- The (group, day) pairs present in `group_schedules`, in first-appearance
order (iteration order of the nested dicts). -/
def groupDayPairs (sessions : List ScheduledSessionModel) : List (String × Nat) :=
  firstDedup ((sessions.map fun s =>
    s.student_groups.map fun g => (g, s.day_of_week)).flatten)

/-- `CSPSolver._calculate_student_convenience_score` (lines 775–814). -/
def student_convenience_score (sol : SolutionModel) : ℚ :=
  if sol.sessions = [] then 1
  else
    let pairs := groupDayPairs sol.sessions
    let totalGapPenalty : ℤ := (pairs.map fun p =>
      let hours := groupDayHours sol.sessions p.1 p.2
      if 1 < hours.length then gapSum (List.insertionSort (· ≤ ·) hours) else 0).sum
    let totalDays := pairs.length
    if totalDays = 0 then 1
    else
      let avgGap : ℚ := (totalGapPenalty : ℚ) / (totalDays : ℚ)
      max 0 (1 - avgGap / 8)

/-- `CSPSolver._calculate_efficiency_score` (lines 816–839). -/
def efficiency_score (sol : SolutionModel) : ℚ :=
  if sol.sessions = [] then 0
  else
    let usedSlots := firstDedup (sol.sessions.map fun s => (s.day_of_week, s.start_hour))
    let rate : ℚ := (usedSlots.length : ℚ) / 50
    if 0.6 ≤ rate ∧ rate ≤ 0.8 then 1
    else if rate < 0.6 then rate / 0.6
    else max 0 (1 - (rate - 0.8) / 0.2)

/-- `CSPSolver.validate_solution` (lines 629–671):  hard-constraint scan,
soft component scores (computed only when `is_feasible`, otherwise left at
their `0.0` initialisation), weighted composite score, and the conflict
list (the hard violations, when any check failed). -/
def validate_solution (sol : SolutionModel) : ValidationResult :=
  let hc := validate_hard_constraints sol.sessions
  let hardScore := hc.1
  let hardViolations := hc.2
  let conflicts := if hardScore < 1 then hardViolations else []
  let vu := if sol.is_feasible then venue_utilization_score sol else 0
  let ls := if sol.is_feasible then lecturer_satisfaction_score sol else 0
  let sc := if sol.is_feasible then student_convenience_score sol else 0
  let eff := if sol.is_feasible then efficiency_score sol else 0
  let overall := hardScore * 0.4 + vu * 0.15 + ls * 0.2 + sc * 0.15 + eff * 0.1
  ⟨conflicts.isEmpty, overall, conflicts, hardViolations⟩

/-! ## Search Driver (`csp_solver.py` lines 50–121, 347–430)

The CP-SAT search itself (OR-Tools) is abstracted: `solve` is modelled as
the dispatch the code performs on the outcome of `self.solver.Solve`.  Its
argument is the result of the internal pipeline: an exceptional outcome
(modelling a Python exception caught by the `except` block at line 113,
carrying its message), or a solver status together with the sessions that
`_extract_solution` would read off the solver's variable values.  The
wall-clock `processing_time` metadata is time-dependent and omitted. -/

/-- The five CP-SAT termination statuses the code can observe. -/
inductive CpStatus where
  | optimal
  | feasible
  | infeasible
  | model_invalid
  | unknown
deriving DecidableEq, Repr

/-- `CSPSolver._analyze_infeasibility` (lines 419–430). -/
def analyze_infeasibility : List ConflictDict :=
  [{ ConflictDict.empty with
      type := some "infeasible_problem"
      message := some "No feasible solution found with current constraints"
      suggestion := some "Consider relaxing some constraints or adding more resources" }]

/-- The conflict record built by the `except` handler of `solve`
(lines 113–121). -/
def solverErrorConflict (msg : String) : ConflictDict :=
  { ConflictDict.empty with type := some "solver_error", message := some msg }

/-- `CSPSolver._extract_solution` (lines 347–417): wraps the extracted
sessions, scores them through `validate_solution` and attaches metadata. -/
def extract_solution (sessions : List ScheduledSessionModel) : SolutionModel :=
  let base : SolutionModel := ⟨sessions, 0, true, [], []⟩
  let vr := validate_solution base
  ⟨sessions, vr.score, true, vr.conflicts,
    [("total_sessions", toString sessions.length),
     ("unique_venues", toString (firstDedup (sessions.map (·.venue_id))).length),
     ("unique_lecturers", toString (firstDedup (sessions.map (·.lecturer_id))).length)]⟩

/-- `CSPSolver.solve` (lines 50–121), as a function of the pipeline
outcome: `Except.error msg` models a raised exception with message `msg`;
`Except.ok (status, sessions)` models a completed search with the given
status and extracted sessions. -/
def solve (pipeline : Except String (CpStatus × List ScheduledSessionModel)) :
    SolutionModel :=
  match pipeline with
  | Except.error msg =>
      ⟨[], 0, false, [solverErrorConflict msg], []⟩
  | Except.ok (status, sessions) =>
      if status = CpStatus.optimal ∨ status = CpStatus.feasible then
        let sol := extract_solution sessions
        ⟨sol.sessions, sol.score, sol.is_feasible, sol.conflicts,
          sol.metadata ++
            [("solver_status",
              if status = CpStatus.optimal then "optimal" else "feasible")]⟩
      else
        ⟨[], 0, false, analyze_infeasibility, [("solver_status", "infeasible")]⟩

/-! ## Conflict Analyzer (`conflict_analyzer.py`)

Entity dictionaries are modelled by records holding the keys the embedded
methods read.  Where the class defines a method several times, the
embedding follows the effective (last) definition, as the claims do. -/

/-- A venue dictionary: the keys read are `id`, `capacity` and
`equipment`. -/
structure VenueDict where
  id : String
  capacity : Nat
  equipment : List String
deriving DecidableEq, Repr

/-- A lecturer dictionary: the only key read by the embedded methods is
`id`. -/
structure LecturerDict where
  id : String
deriving DecidableEq, Repr

/-- A course dictionary: the only key read by the embedded methods is
`required_equipment` (besides the `id` used for lookup). -/
structure CourseDict where
  id : String
  required_equipment : List String
deriving DecidableEq, Repr

/-- A student-group dictionary: the keys read are `id` and `size`. -/
structure StudentGroupDict where
  id : String
  size : Nat
deriving DecidableEq, Repr

/-- `ConflictPattern._calculate_severity` (lines 33–37):
`min(frequency/10, 1) + entities/20`, capped at `1`. -/
def calculate_severity (frequency : Nat) (numEntities : Nat) : ℚ :=
  min (min ((frequency : ℚ) / 10) 1 + (numEntities : ℚ) / 20) 1

/-- `ConflictPattern` (lines 24–37); `severity_score` is fixed by the
constructor, so it is stored alongside the data it is computed from. -/
structure ConflictPattern where
  conflict_type : String
  frequency : Nat
  entities : List String
  severity_score : ℚ
deriving DecidableEq, Repr

/-- The `ConflictPattern` constructor, computing `severity_score`. -/
def mkConflictPattern (t : String) (freq : Nat) (ents : List String) :
    ConflictPattern :=
  ⟨t, freq, ents, calculate_severity freq ents.length⟩

/-- `conflict.get('type', 'unknown')`. -/
def effType (c : ConflictDict) : String := c.type.getD "unknown"

/-- The multiplicity of type `t` in the conflicts (`Counter` of
`_identify_conflict_patterns`). -/
def countType (conflicts : List ConflictDict) (t : String) : Nat :=
  (conflicts.filter fun c => decide (effType c = t)).length

/-- The length of `entity_conflicts[e]` in `_identify_conflict_patterns`:
one entry per occurrence of `e` in a conflict's `affected_entities`. -/
def entityOccCount (conflicts : List ConflictDict) (e : String) : Nat :=
  ((conflicts.map (·.affected_entities)).flatten).count e

/-- The number of distinct conflicts whose `affected_entities` mention
`e` — the reading "appears in at least 3 conflicts" of the claim. -/
def entityConflictCount (conflicts : List ConflictDict) (e : String) : Nat :=
  (conflicts.filter fun c => decide (e ∈ c.affected_entities)).length

/-- Descending severity, the sort key of `_identify_conflict_patterns`
(line 200, `reverse=True`). -/
def sevGe (p q : ConflictPattern) : Prop := q.severity_score ≤ p.severity_score

instance : DecidableRel sevGe := fun p q =>
  inferInstanceAs (Decidable (q.severity_score ≤ p.severity_score))

instance : IsTotal ConflictPattern sevGe :=
  ⟨fun p q => (le_total q.severity_score p.severity_score).imp id id⟩

instance : IsTrans ConflictPattern sevGe :=
  ⟨fun _ _ _ h h' => le_trans h' h⟩

/-- The deduplicated entities involved in the conflicts of type `t` —
Python's `list(set(involved_entities))` (lines 185–190), whose iteration
order is unspecified, rendered in first-occurrence order. -/
def typePatternEntities (conflicts : List ConflictDict) (t : String) :
    List String :=
  firstDedup ((conflicts.filter fun c => decide (effType c = t)).map
    (·.affected_entities)).flatten

/-- The patterns created for conflict types of multiplicity ≥ 2
(lines 182–191), in `Counter` iteration order. -/
def typePatterns (conflicts : List ConflictDict) : List ConflictPattern :=
  (firstDedup (conflicts.map effType)).filterMap fun t =>
    if 2 ≤ countType conflicts t then
      some (mkConflictPattern t (countType conflicts t)
        (typePatternEntities conflicts t))
    else none

/-- The "entity hotspot" patterns created for entities with ≥ 3 entries in
`entity_conflicts` (lines 193–198), in `defaultdict` iteration order. -/
def entityPatterns (conflicts : List ConflictDict) : List ConflictPattern :=
  (firstDedup ((conflicts.map (·.affected_entities)).flatten)).filterMap fun e =>
    if 3 ≤ entityOccCount conflicts e then
      some (mkConflictPattern ("entity_hotspot_" ++ e)
        (entityOccCount conflicts e) [e])
    else none

/-- `ConflictAnalyzer._identify_conflict_patterns` (lines 169–200): the
type patterns followed by the entity-hotspot patterns, sorted by descending
severity (a stable sort, line 200). -/
def identify_conflict_patterns (conflicts : List ConflictDict) :
    List ConflictPattern :=
  List.insertionSort sevGe (typePatterns conflicts ++ entityPatterns conflicts)

/-- `ResolutionSuggestion` (lines 39–65), sans the derived `confidence`
(see `ResolutionSuggestion.confidence`). `parameters` is an association
list of string-valued keys. -/
structure ResolutionSuggestion where
  resolution_id : String
  description : String
  resolution_type : String
  affected_sessions : List String
  parameters : List (String × String)
  score : ℚ
  effort_level : String
  impact_description : String
deriving DecidableEq, Repr

/-- The effort penalty of `ResolutionSuggestion._calculate_confidence`
(line 64, dictionary default `0.2`). -/
def confidenceEffortPenalty (effort : String) : ℚ :=
  if effort = "low" then 0 else if effort = "medium" then 0.1
  else if effort = "high" then 0.2 else 0.2

/-- `ResolutionSuggestion._calculate_confidence` (lines 61–65); the
constructor always sets `confidence` to this value, so it is modelled as a
derived function. -/
def ResolutionSuggestion.confidence (s : ResolutionSuggestion) : ℚ :=
  max 0 (min 1 (s.score - confidenceEffortPenalty s.effort_level))

/-- `parameters.get(key)`. -/
def getParam (s : ResolutionSuggestion) (key : String) : Option String :=
  (s.parameters.find? fun p => p.1 == key).map (·.2)

/-- The effort ordinal of `_rank_suggestions` (line 1710, dictionary
default `2`). -/
def effortOrder (effort : String) : Nat :=
  if effort = "low" then 1 else if effort = "medium" then 2
  else if effort = "high" then 3 else 2

/-- The sort order of `_rank_suggestions` (line 1712): ascending in the key
`(-score, effort_order)`, i.e. score descending then effort ascending. -/
def rankLe (a b : ResolutionSuggestion) : Prop :=
  b.score < a.score ∨
    (a.score = b.score ∧ effortOrder a.effort_level ≤ effortOrder b.effort_level)

instance : DecidableRel rankLe := fun a b =>
  inferInstanceAs (Decidable (b.score < a.score ∨
    (a.score = b.score ∧ effortOrder a.effort_level ≤ effortOrder b.effort_level)))

instance : IsTotal ResolutionSuggestion rankLe := by
  constructor
  intro a b
  rcases lt_trichotomy a.score b.score with h | h | h
  · exact Or.inr (Or.inl h)
  · rcases le_total (effortOrder a.effort_level) (effortOrder b.effort_level) with
      h' | h'
    · exact Or.inl (Or.inr ⟨h, h'⟩)
    · exact Or.inr (Or.inr ⟨h.symm, h'⟩)
  · exact Or.inl (Or.inl h)

instance : IsTrans ResolutionSuggestion rankLe := by
  constructor
  rintro a b c (hab | ⟨hab, eab⟩) (hbc | ⟨hbc, ebc⟩)
  · exact Or.inl (lt_trans hbc hab)
  · exact Or.inl (hbc ▸ hab)
  · exact Or.inl (hab ▸ hbc)
  · exact Or.inr ⟨hab.trans hbc, eab.trans ebc⟩

/-- `ConflictAnalyzer._rank_suggestions` (effective definition, lines
1707–1712).  The Python `conflicts` and `solution` parameters are unused by
the body and are omitted.  Python's `sorted` is a stable sort by the key
`(-score, effort_order)`; a stable sort by a total preorder is unique, so
insertion sort computes the same list. -/
def rank_suggestions (suggestions : List ResolutionSuggestion) :
    List ResolutionSuggestion :=
  List.insertionSort rankLe suggestions

/-- The ranking-and-truncation tail of
`ConflictAnalyzer.generate_resolution_suggestions` (lines 160–167), as a
function of the list of suggestions produced by the per-conflict-type
generators; `max_suggestions` defaults to 5 in the Python signature
(line 122). -/
def generate_resolution_suggestions_top
    (all_suggestions : List ResolutionSuggestion) (max_suggestions : Nat) :
    List ResolutionSuggestion :=
  (rank_suggestions all_suggestions).take max_suggestions

/-! ### Alternative finders (effective definitions) -/

/-- The required capacity computed by `_find_alternative_venues`
(lines 1722–1726): the sizes of the session's groups, unknown groups
counting 0. -/
def requiredCapacity (groups : List StudentGroupDict) (groupIds : List String) :
    Nat :=
  (groupIds.map fun gid =>
    (((groups.find? fun g => g.id == gid).map (·.size)).getD 0)).sum

/-- Ascending capacity, the sort key of `_find_alternative_venues`
(line 1746). -/
def capLe (a b : VenueDict) : Prop := a.capacity ≤ b.capacity

instance : DecidableRel capLe := fun a b =>
  inferInstanceAs (Decidable (a.capacity ≤ b.capacity))

instance : IsTotal VenueDict capLe := ⟨fun a b => le_total a.capacity b.capacity⟩

instance : IsTrans VenueDict capLe := ⟨fun _ _ _ h h' => le_trans h h'⟩

/-- The suitability test of the venue loop of `_find_alternative_venues`
(lines 1730–1743): not the current venue, enough capacity, all required
equipment present. -/
def venueSuitable (session : ScheduledSessionModel) (reqEquip : List String)
    (reqCap : Nat) (v : VenueDict) : Bool :=
  !(v.id == session.venue_id) && reqCap ≤ v.capacity &&
    reqEquip.all fun e => v.equipment.contains e

/-- `ConflictAnalyzer._find_alternative_venues` (effective definition,
lines 1714–1746).  The `venues` dict is passed as its value list (insertion
order); `entities` is passed as its course and student-group lists.  Note:
this definition returns all suitable venues sorted by ascending capacity,
with no cap. -/
def find_alternative_venues (session : ScheduledSessionModel)
    (venues : List VenueDict) (courses : List CourseDict)
    (groups : List StudentGroupDict) : List VenueDict :=
  let reqEquip :=
    ((courses.find? fun c => c.id == session.course_id).map
      (·.required_equipment)).getD []
  let reqCap := requiredCapacity groups session.student_groups
  List.insertionSort capLe
    (venues.filter (venueSuitable session reqEquip reqCap))

/-- The day names used to render alternative time slots (line 1775). -/
def dayNames : List String := ["Monday", "Tuesday", "Wednesday", "Thursday", "Friday"]

/-- `f"{day_names[day]} {hour:02d}:00"` (line 1776). -/
def timeDisplay (day hour : Nat) : String :=
  dayNames.getD day "" ++ " " ++
    (if hour < 10 then "0" ++ toString hour else toString hour) ++ ":00"

/-- Whether `other` collides with `session` at slot `(d, h)`: same day and
hour, and shared venue, lecturer or student group (lines 1765–1772). -/
def sharesResource (session other : ScheduledSessionModel) (d h : Nat) : Bool :=
  other.day_of_week == d && other.start_hour == h &&
    (other.venue_id == session.venue_id ||
     other.lecturer_id == session.lecturer_id ||
     session.student_groups.any fun g => other.student_groups.contains g)

/-- Whether slot `(d, h)` is free of collisions for `session` among
`all_sessions`. -/
def slotFree (session : ScheduledSessionModel)
    (all_sessions : List ScheduledSessionModel) (d h : Nat) : Bool :=
  !(all_sessions.any fun o => sharesResource session o d h)

/-- Whether `(d, h)` is not the session's current slot (lines 1759–1761). -/
def notCurrentSlot (session : ScheduledSessionModel) (d h : Nat) : Bool :=
  !(d == session.day_of_week && h == session.start_hour)

/-- The slot grid iterated by the effective `_find_alternative_times`
(lines 1752–1758): days 0–4 (outer), hours 9–16 (inner) — `range(9, 17)`,
with no lunch break. -/
def altTimesSlots : List (Nat × Nat) :=
  ((List.range 5).map fun d => (List.range 8).map fun i => (d, 9 + i)).flatten

/-- The session loop of `_find_alternative_times`, flattened over the slot
grid.  The Python loop breaks out of both levels as soon as 5 alternatives
have been collected (lines 1779–1783); since nothing is appended once the
accumulator holds 5 entries, checking the cap at the head of each iteration
computes the same list. -/
def findAltTimesLoop (session : ScheduledSessionModel)
    (all_sessions : List ScheduledSessionModel) :
    List (Nat × Nat) → List String → List String
  | [], acc => acc
  | (d, h) :: rest, acc =>
    if 5 ≤ acc.length then acc
    else if notCurrentSlot session d h && slotFree session all_sessions d h then
      findAltTimesLoop session all_sessions rest (acc ++ [timeDisplay d h])
    else
      findAltTimesLoop session all_sessions rest acc

/-- `ConflictAnalyzer._find_alternative_times` (effective definition,
lines 1748–1785). -/
def find_alternative_times (session : ScheduledSessionModel)
    (all_sessions : List ScheduledSessionModel) : List String :=
  findAltTimesLoop session all_sessions altTimesSlots []

/-- Modelled from the spec: the alternative-time-slot contract of §4.8
("Iterate days Mon–Fri, hours 8–17 skipping 12 (lunch) and the current
slot; a slot is usable iff no other session shares the venue, lecturer, or
any student group at that (day, hour); capped at 5"), stated for comparison
with the effective source definition `find_alternative_times`. -/
def specAlternativeTimesSlots : List (Nat × Nat) :=
  ((List.range 5).map fun d =>
    ((List.range 10).map fun i => (d, 8 + i)).filter fun p =>
      decide ¬(p.2 = 12)).flatten

/-- Modelled from the spec: the §4.8 alternative-times finder over the
spec's slot grid (hours 8–17 without 12), with the same collision test and
cap of 5. -/
def specFindAlternativeTimes (session : ScheduledSessionModel)
    (all_sessions : List ScheduledSessionModel) : List String :=
  findAltTimesLoop session all_sessions specAlternativeTimesSlots []

/-! ### Suggestion Evaluator (effective definitions, lines 1883–2005) -/

/-- The effort penalty of `_calculate_feasibility_score` (line 1938,
dictionary default `0.1`). -/
def feasibilityEffortPenalty (effort : String) : ℚ :=
  if effort = "low" then 0 else if effort = "medium" then 0.1
  else if effort = "high" then 0.2 else 0.1

/-- `ConflictAnalyzer._calculate_feasibility_score` (lines 1920–1941).
Only the venue and lecturer entity lists are read. -/
def calculate_feasibility_score (s : ResolutionSuggestion)
    (venues : List VenueDict) (lecturers : List LecturerDict) : ℚ :=
  let base : ℚ := 0.8
  let base :=
    if s.resolution_type = "reassign_venue" then
      match getParam s "new_venue_id" with
      | some vid => if venues.any fun v => v.id == vid then base else base - 0.3
      | none => base - 0.3
    else if s.resolution_type = "reassign_lecturer" then
      match getParam s "new_lecturer_id" with
      | some lid => if lecturers.any fun l => l.id == lid then base else base - 0.3
      | none => base - 0.3
    else base
  let base := base - feasibilityEffortPenalty s.effort_level
  min 1 (max 0 base)

/-- The number of conflicts whose `session_ids` intersect the suggestion's
affected sessions (lines 1948–1954). -/
def conflictsResolved (s : ResolutionSuggestion)
    (conflicts : List ConflictDict) : Nat :=
  (conflicts.filter fun c =>
    decide (∃ sid ∈ c.session_ids, sid ∈ s.affected_sessions)).length

/-- `ConflictAnalyzer._calculate_impact_score` (lines 1943–1964).  The
`solution` parameter is unused by the body and is omitted. -/
def calculate_impact_score (s : ResolutionSuggestion)
    (conflicts : List ConflictDict) : ℚ :=
  let base : ℚ := 0.7
  let n := conflictsResolved s conflicts
  let base := if 1 < n then base + min 0.3 ((n : ℚ) * 0.1) else base
  let base := if s.effort_level = "high" then base - 0.1 else base
  min 1 (max 0 base)

/-- The risk assessment dictionary returned by `_assess_suggestion_risk`. -/
structure RiskAssessment where
  level : String
  factors : List String
  mitigation_suggestions : List String
deriving DecidableEq, Repr

/-- `ConflictAnalyzer._assess_suggestion_risk` (effective definition,
lines 1966–2005).  The Python mitigation tests are substring probes of
`str(risk_factors)`; each probe string occurs in that rendering exactly when
the corresponding factor was appended, so they are modelled as list
membership.  The `conflicts` parameter is unused by the body and is
omitted. -/
def assess_suggestion_risk (s : ResolutionSuggestion) : RiskAssessment :=
  let fs0 : List String := []
  let lvl0 := "low"
  let fs1 := if s.effort_level = "high" then
      fs0 ++ ["High implementation effort required"] else fs0
  let lvl1 := if s.effort_level = "high" then "medium" else lvl0
  let fs2 := if 3 < s.affected_sessions.length then
      fs1 ++ ["Multiple sessions affected"] else fs1
  let lvl2 := if 3 < s.affected_sessions.length then
      (if lvl1 = "medium" then "high" else "medium") else lvl1
  let fs3 := if s.confidence < 0.6 then
      fs2 ++ ["Low confidence in solution effectiveness"] else fs2
  let lvl3 := if s.confidence < 0.6 then
      (if lvl2 = "medium" then "high" else "medium") else lvl2
  let complex := s.resolution_type = "split_group" ∨
      s.resolution_type = "reassign_lecturer"
  let fs4 := if complex then
      fs3 ++ ["Complex resolution type with potential side effects"] else fs3
  let lvl4 := if complex then (if lvl3 = "low" then "medium" else lvl3) else lvl3
  let mits :=
    (if "High implementation effort required" ∈ fs4 then
      ["Plan implementation in phases"] else []) ++
    (if "Multiple sessions affected" ∈ fs4 then
      ["Notify all affected parties in advance"] else []) ++
    (if "Low confidence in solution effectiveness" ∈ fs4 then
      ["Consider alternative solutions or seek additional input"] else [])
  ⟨lvl4, fs4, mits⟩

/-- The effort score of `evaluate_suggestion_quality` (line 1893,
dictionary default `0.5`). -/
def effortQualityScore (effort : String) : ℚ :=
  if effort = "low" then 0.9 else if effort = "medium" then 0.6
  else if effort = "high" then 0.3 else 0.5

/-- The quality dictionary returned by `evaluate_suggestion_quality`. -/
structure SuggestionQuality where
  overall_score : ℚ
  confidence : ℚ
  feasibility_score : ℚ
  impact_score : ℚ
  effort_score : ℚ
  risk_assessment : RiskAssessment
  recommendation : String
deriving DecidableEq, Repr

/-- `ConflictAnalyzer.evaluate_suggestion_quality` (effective definition,
lines 1883–1918).  `solution` is unused by the body; of `entities` only the
venue and lecturer lists are read (through the feasibility score). -/
def evaluate_suggestion_quality (s : ResolutionSuggestion)
    (conflicts : List ConflictDict) (venues : List VenueDict)
    (lecturers : List LecturerDict) : SuggestionQuality :=
  let feas := calculate_feasibility_score s venues lecturers
  let impact := calculate_impact_score s conflicts
  let effort := effortQualityScore s.effort_level
  let risk := assess_suggestion_risk s
  let overall := s.score * 0.4 + feas * 0.3 + impact * 0.2 + effort * 0.1
  let recommendation :=
    if 0.7 ≤ overall ∧ risk.level ≠ "high" then "approve" else "review"
  ⟨min 1 (max 0 overall), s.confidence, feas, impact, effort, risk,
    recommendation⟩

/-! ## Theorems -/

/-- A one-session schedule used as concrete input by several results:
course `c1` with group `g1`, lecturer `l1`, venue `v1`, Monday 09:00. -/
def demoSession : ScheduledSessionModel := ⟨"s1", "c1", "l1", "v1", ["g1"], 9, 0⟩

/-- The total-checks counter of the `_validate_hard_constraints` scan. -/
def hcTotalChecks (sessions : List ScheduledSessionModel) : Nat :=
  (sessions.foldl hcStep ⟨[], 0, 0, [], []⟩).totalChecks

/-- The passed-checks counter of the `_validate_hard_constraints` scan. -/
def hcPassedChecks (sessions : List ScheduledSessionModel) : Nat :=
  (sessions.foldl hcStep ⟨[], 0, 0, [], []⟩).passedChecks

/-- C1, counterexample: on the empty schedule (flagged feasible)
`validate_solution` returns an empty conflicts list and `is_valid = true`,
but its score is 3/4 — the hard-constraint component scores 1 (weight 0.4)
and the empty-schedule lecturer-satisfaction and student-convenience
components score 1 (weights 0.2 and 0.15) — not 0 as claimed.  (With
`is_feasible = false` the score is 2/5, likewise nonzero.) -/
theorem empty_schedule_score_not_zero :
    (validate_solution ⟨[], 0, true, [], []⟩).conflicts = [] ∧
    (validate_solution ⟨[], 0, true, [], []⟩).is_valid = true ∧
    (validate_solution ⟨[], 0, true, [], []⟩).score = 0.75 ∧
    (validate_solution ⟨[], 0, false, [], []⟩).score = 0.4 ∧
    ¬((0.75 : ℚ) = 0) ∧ ¬((0.4 : ℚ) = 0) := by
  refine ⟨rfl, rfl, ?_, ?_, by norm_num, by norm_num⟩ <;>
    · simp [validate_solution, validate_hard_constraints, venue_utilization_score,
        lecturer_satisfaction_score, student_convenience_score, efficiency_score]
      try norm_num

/-- C1, amended: for every solution whose session list is empty,
`validate_solution` returns an empty conflicts list, `is_valid = true`, and
score 0.75 when the solution is flagged feasible (0.4 when flagged
infeasible) — not score 0. -/
theorem empty_schedule_validation (sc : ℚ) (b : Bool) (cf : List ConflictDict)
    (md : List (String × String)) :
    validate_solution ⟨[], sc, b, cf, md⟩ =
      ⟨true, if b then 0.75 else 0.4, [], []⟩ := by
  cases b <;>
    · simp [validate_solution, validate_hard_constraints, venue_utilization_score,
        lecturer_satisfaction_score, student_convenience_score, efficiency_score,
        ValidationResult.mk.injEq]
      try norm_num

/-- Two sessions clash on the venue when they share venue, day and hour. -/
def venueDistinct (a b : ScheduledSessionModel) : Prop :=
  ¬(a.venue_id = b.venue_id ∧ a.day_of_week = b.day_of_week ∧
    a.start_hour = b.start_hour)

/-- Two sessions clash on the lecturer when they share lecturer, day and
hour. -/
def lecturerDistinct (a b : ScheduledSessionModel) : Prop :=
  ¬(a.lecturer_id = b.lecturer_id ∧ a.day_of_week = b.day_of_week ∧
    a.start_hour = b.start_hour)

theorem hc_fold_no_violations :
    ∀ (sessions : List ScheduledSessionModel) (st : HCState),
      sessions.Pairwise venueDistinct → sessions.Pairwise lecturerDistinct →
      (∀ s ∈ sessions,
        (s.venue_id, s.day_of_week, s.start_hour) ∉ st.venueBookings) →
      (∀ s ∈ sessions,
        (s.lecturer_id, s.day_of_week, s.start_hour) ∉ st.lecturerBookings) →
      (sessions.foldl hcStep st).violations = st.violations := by
  intro sessions
  induction sessions with
  | nil => intro st _ _ _ _; rfl
  | cons s rest ih =>
    intro st hv hl hbv hbl
    have hsv : (s.venue_id, s.day_of_week, s.start_hour) ∉ st.venueBookings :=
      hbv s (List.mem_cons_self s rest)
    have hsl : (s.lecturer_id, s.day_of_week, s.start_hour) ∉ st.lecturerBookings :=
      hbl s (List.mem_cons_self s rest)
    have hstep : hcStep st s =
        ⟨st.violations, st.totalChecks + 1 + 1, st.passedChecks + 1 + 1,
          st.venueBookings ++ [(s.venue_id, s.day_of_week, s.start_hour)],
          st.lecturerBookings ++ [(s.lecturer_id, s.day_of_week, s.start_hour)]⟩ := by
      simp [hcStep, hsv, hsl]
    rw [List.foldl_cons, hstep]
    exact ih _ (List.Pairwise.of_cons hv) (List.Pairwise.of_cons hl)
      (by
        intro s2 hs2
        simp only [List.mem_append, List.mem_singleton, not_or]
        refine ⟨hbv s2 (List.mem_cons_of_mem _ hs2), ?_⟩
        intro hkey
        have h1 := (List.pairwise_cons.mp hv).1 s2 hs2
        rw [Prod.mk.injEq, Prod.mk.injEq] at hkey
        exact h1 ⟨hkey.1.symm, hkey.2.1.symm, hkey.2.2.symm⟩)
      (by
        intro s2 hs2
        simp only [List.mem_append, List.mem_singleton, not_or]
        refine ⟨hbl s2 (List.mem_cons_of_mem _ hs2), ?_⟩
        intro hkey
        have h1 := (List.pairwise_cons.mp hl).1 s2 hs2
        rw [Prod.mk.injEq, Prod.mk.injEq] at hkey
        exact h1 ⟨hkey.1.symm, hkey.2.1.symm, hkey.2.2.symm⟩)

/-- Modelled from the spec: invariant 5 of §3 ("for every session, the
assigned venue's capacity ≥ sum of attending group sizes"), which the claim
says the validator re-checks.  Stated over the entity dictionaries for
comparison with what `validate_solution` (which receives no entities at
all) actually checks. -/
def specCapacityInvariant (venues : List VenueDict)
    (groups : List StudentGroupDict) (s : ScheduledSessionModel) : Bool :=
  match venues.find? fun v => v.id == s.venue_id with
  | some v => requiredCapacity groups s.student_groups ≤ v.capacity
  | none => false

/-- C2, counterexample: a session placing a group of 50 students in a venue
of capacity 10 violates the capacity invariant (invariant 5 of §3), yet
`validate_solution` reports the schedule valid with no conflicts: the
validator re-checks only venue and lecturer double-booking, not the other
invariants (it is not even given the entities needed to check them). -/
theorem capacity_violation_passes_validator :
    specCapacityInvariant [⟨"v1", 10, []⟩] [⟨"g1", 50⟩] demoSession = false ∧
    (validate_solution ⟨[demoSession], 0, true, [], []⟩).is_valid = true ∧
    (validate_solution ⟨[demoSession], 0, true, [], []⟩).conflicts = [] := by
  refine ⟨by simp [specCapacityInvariant, requiredCapacity, demoSession], ?_, ?_⟩ <;>
    · simp [validate_solution, validate_hard_constraints, hcStep, demoSession]
      try norm_num

/-- C2, amended: the validator re-checks only invariants 2 and 3 of the
data model (venue and lecturer double-booking): every schedule whose
sessions are pairwise distinct on (venue, day, hour) and on (lecturer, day,
hour) is reported valid with an empty conflicts list, regardless of
capacity, equipment, availability, group-collision, frequency or subject
violations. -/
theorem validator_checks_only_double_booking (sol : SolutionModel)
    (hv : sol.sessions.Pairwise venueDistinct)
    (hl : sol.sessions.Pairwise lecturerDistinct) :
    (validate_solution sol).is_valid = true ∧
    (validate_solution sol).conflicts = [] := by
  have h := hc_fold_no_violations sol.sessions ⟨[], 0, 0, [], []⟩ hv hl
    (by simp) (by simp)
  constructor <;>
    · simp only [validate_solution, validate_hard_constraints, h]
      simp

/-- C2, witness: the amended statement at the capacity-violating
one-session schedule of the counterexample. -/
theorem validator_checks_only_double_booking_witness :
    (validate_solution ⟨[demoSession], 0, true, [], []⟩).is_valid = true ∧
    (validate_solution ⟨[demoSession], 0, true, [], []⟩).conflicts = [] :=
  validator_checks_only_double_booking ⟨[demoSession], 0, true, [], []⟩
    (by simp) (by simp)

/-- C3, counterexample: on a one-session solution flagged infeasible the
validator's score is 2/5 = 0.4·1, while the claimed decomposition
0.4·hard + 0.15·venue_utilization + 0.2·lecturer_satisfaction
+ 0.15·student_convenience + 0.1·efficiency evaluates to 271/300: when
`is_feasible` is false the validator leaves every soft component at its 0.0
initialisation instead of computing it. -/
theorem validator_score_not_full_formula_when_infeasible :
    (validate_solution ⟨[demoSession], 0, false, [], []⟩).score ≠
      0.4 * (validate_hard_constraints [demoSession]).1 +
        0.15 * venue_utilization_score ⟨[demoSession], 0, false, [], []⟩ +
        0.2 * lecturer_satisfaction_score ⟨[demoSession], 0, false, [], []⟩ +
        0.15 * student_convenience_score ⟨[demoSession], 0, false, [], []⟩ +
        0.1 * efficiency_score ⟨[demoSession], 0, false, [], []⟩ := by
  simp [validate_solution, validate_hard_constraints, hcStep, demoSession,
    venue_utilization_score, lecturer_satisfaction_score,
    student_convenience_score, efficiency_score, firstDedup, firstDedupAux,
    groupDayPairs, groupDayHours, gapSum]
  norm_num

/-- C3, amended: the validator's overall score is 0.4 times the
hard-constraint score plus — only when the solution is flagged feasible —
0.15·venue utilization + 0.2·lecturer satisfaction + 0.15·student
convenience + 0.1·efficiency (for solutions flagged infeasible the four
soft components stay at 0); the hard-constraint score is the fraction of
hard checks passed over hard checks evaluated, and 1 when no checks were
evaluated. -/
theorem validator_score_decomposition (sol : SolutionModel) :
    (validate_solution sol).score =
      0.4 * (validate_hard_constraints sol.sessions).1 +
        (if sol.is_feasible then
          0.15 * venue_utilization_score sol +
            0.2 * lecturer_satisfaction_score sol +
            0.15 * student_convenience_score sol +
            0.1 * efficiency_score sol
        else 0) ∧
    (validate_hard_constraints sol.sessions).1 =
      (if hcTotalChecks sol.sessions = 0 then 1
       else (hcPassedChecks sol.sessions : ℚ) / (hcTotalChecks sol.sessions : ℚ)) := by
  constructor
  · cases hb : sol.is_feasible <;> simp [validate_solution, hb] <;> ring
  · show (if 0 < hcTotalChecks sol.sessions then
        (hcPassedChecks sol.sessions : ℚ) / (hcTotalChecks sol.sessions : ℚ)
      else 1) = _
    rcases Nat.eq_zero_or_pos (hcTotalChecks sol.sessions) with h | h
    · simp [h]
    · simp [h, Nat.pos_iff_ne_zero.mp h]

/-- C9, counterexample: when the search ends infeasible, `solve` does
return an infeasible result with a conflict of kind `infeasible_problem`
carrying a `suggestion` field, but that suggestion reads "Consider relaxing
some constraints or adding more resources", not the claimed hint "relax
constraints or add resources" (which is not even a substring of it). -/
theorem infeasible_suggestion_text_differs :
    (solve (Except.ok (CpStatus.infeasible, []))).is_feasible = false ∧
    (solve (Except.ok (CpStatus.infeasible, []))).conflicts.map (·.type) =
      [some "infeasible_problem"] ∧
    (solve (Except.ok (CpStatus.infeasible, []))).conflicts.map (·.suggestion) =
      [some "Consider relaxing some constraints or adding more resources"] ∧
    ¬(some "Consider relaxing some constraints or adding more resources" =
        (some "relax constraints or add resources" : Option String)) := by
  refine ⟨rfl, by decide, by decide, by decide⟩

/-- C9, amended: whenever the CP search finishes with neither an optimal
nor a feasible status, `solve` returns an infeasible result (empty session
list, score 0, `is_feasible = false`) whose conflicts list is exactly one
record of kind `infeasible_problem` whose suggestion field advises to relax
constraints or add resources, concretely the string "Consider relaxing some
constraints or adding more resources". -/
theorem solve_infeasible_result (status : CpStatus)
    (extracted : List ScheduledSessionModel)
    (h1 : status ≠ CpStatus.optimal) (h2 : status ≠ CpStatus.feasible) :
    solve (Except.ok (status, extracted)) =
      ⟨[], 0, false, analyze_infeasibility, [("solver_status", "infeasible")]⟩ ∧
    analyze_infeasibility.map (·.type) = [some "infeasible_problem"] ∧
    analyze_infeasibility.map (·.suggestion) =
      [some "Consider relaxing some constraints or adding more resources"] := by
  refine ⟨?_, by decide, by decide⟩
  simp only [solve]
  rw [if_neg]
  simp [h1, h2]

/-- C9, witness: the amended statement at the concrete status
`CpStatus.infeasible`. -/
theorem solve_infeasible_result_witness :
    solve (Except.ok (CpStatus.infeasible, [])) =
      ⟨[], 0, false, analyze_infeasibility, [("solver_status", "infeasible")]⟩ :=
  (solve_infeasible_result CpStatus.infeasible [] (by decide) (by decide)).1

theorem clamp_nonneg (x : ℚ) : 0 ≤ min 1 (max 0 x) :=
  le_min (by norm_num) (le_max_left 0 x)

theorem clamp_le_one (x : ℚ) : min 1 (max 0 x) ≤ 1 := min_le_left _ _

theorem feasibility_score_bounds (s : ResolutionSuggestion)
    (venues : List VenueDict) (lecturers : List LecturerDict) :
    0 ≤ calculate_feasibility_score s venues lecturers ∧
    calculate_feasibility_score s venues lecturers ≤ 1 := by
  unfold calculate_feasibility_score
  exact ⟨clamp_nonneg _, clamp_le_one _⟩

theorem impact_score_bounds (s : ResolutionSuggestion)
    (conflicts : List ConflictDict) :
    0 ≤ calculate_impact_score s conflicts ∧
    calculate_impact_score s conflicts ≤ 1 := by
  unfold calculate_impact_score
  exact ⟨clamp_nonneg _, clamp_le_one _⟩

theorem effort_quality_score_bounds (e : String) :
    0 ≤ effortQualityScore e ∧ effortQualityScore e ≤ 0.9 := by
  unfold effortQualityScore
  split_ifs <;> norm_num

/-- C5: for every suggestion with score in [0,1] (the data model's range),
the evaluator's overall score equals 0.4·suggestion.score
+ 0.3·feasibility + 0.2·impact + 0.1·effort (the clamp to [0,1] applied to
the stored value is the identity on this range), and the recommendation is
"approve" exactly when that overall score is ≥ 0.7 and the assessed risk
level is not "high", otherwise "review". -/
theorem suggestion_quality_formula (s : ResolutionSuggestion)
    (conflicts : List ConflictDict) (venues : List VenueDict)
    (lecturers : List LecturerDict) (h0 : 0 ≤ s.score) (h1 : s.score ≤ 1) :
    (evaluate_suggestion_quality s conflicts venues lecturers).overall_score =
      0.4 * s.score + 0.3 * calculate_feasibility_score s venues lecturers +
        0.2 * calculate_impact_score s conflicts +
        0.1 * effortQualityScore s.effort_level ∧
    ((evaluate_suggestion_quality s conflicts venues lecturers).recommendation =
        "approve" ↔
      (0.7 ≤ (evaluate_suggestion_quality s conflicts venues
          lecturers).overall_score ∧
        (assess_suggestion_risk s).level ≠ "high")) := by
  have hf := feasibility_score_bounds s venues lecturers
  have hi := impact_score_bounds s conflicts
  have he := effort_quality_score_bounds s.effort_level
  set f := calculate_feasibility_score s venues lecturers with hfdef
  set i := calculate_impact_score s conflicts with hidef
  set e := effortQualityScore s.effort_level with hedef
  have hov0 : 0 ≤ s.score * 0.4 + f * 0.3 + i * 0.2 + e * 0.1 := by
    have := hf.1; have := hi.1; have := he.1; nlinarith
  have hov1 : s.score * 0.4 + f * 0.3 + i * 0.2 + e * 0.1 ≤ 1 := by
    have := hf.2; have := hi.2; have := he.2; nlinarith
  have hclamp : min 1 (max 0 (s.score * 0.4 + f * 0.3 + i * 0.2 + e * 0.1)) =
      s.score * 0.4 + f * 0.3 + i * 0.2 + e * 0.1 := by
    rw [max_eq_right hov0, min_eq_right hov1]
  have hover : (evaluate_suggestion_quality s conflicts venues
      lecturers).overall_score = s.score * 0.4 + f * 0.3 + i * 0.2 + e * 0.1 := by
    simp only [evaluate_suggestion_quality, ← hfdef, ← hidef, ← hedef]
    exact hclamp
  constructor
  · rw [hover]; ring
  · rw [hover]
    simp only [evaluate_suggestion_quality, ← hfdef, ← hidef, ← hedef]
    by_cases hc : 0.7 ≤ s.score * 0.4 + f * 0.3 + i * 0.2 + e * 0.1 ∧
        (assess_suggestion_risk s).level ≠ "high"
    · simp [hc]
    · simp only [if_neg hc]
      constructor
      · intro hrev; exact absurd hrev (by decide)
      · intro hcond; exact absurd hcond hc

/-- A suggestion with score 0.8 and low effort, used as the concrete input
of the C5 witness. -/
def demoSuggestion : ResolutionSuggestion :=
  ⟨"r1", "Reschedule session s1", "reschedule", ["s1"],
    [("new_time", "Monday 10:00")], 0.8, "low", "Affects 1 session"⟩

/-- C5, witness: the quality formula and recommendation rule at the
concrete suggestion `demoSuggestion`. -/
theorem suggestion_quality_formula_witness :
    (evaluate_suggestion_quality demoSuggestion [] [] []).overall_score =
      0.4 * demoSuggestion.score +
        0.3 * calculate_feasibility_score demoSuggestion [] [] +
        0.2 * calculate_impact_score demoSuggestion [] +
        0.1 * effortQualityScore demoSuggestion.effort_level ∧
    ((evaluate_suggestion_quality demoSuggestion [] [] []).recommendation =
        "approve" ↔
      (0.7 ≤ (evaluate_suggestion_quality demoSuggestion [] [] []).overall_score ∧
        (assess_suggestion_risk demoSuggestion).level ≠ "high")) :=
  suggestion_quality_formula demoSuggestion [] [] []
    (by norm_num [demoSuggestion]) (by norm_num [demoSuggestion])

/-- C6: ranking sorts the generated suggestions by the key
(score descending, effort ordinal ascending): the ranked list is a
permutation of the input, is sorted for that order, and for any two
positions i < j with equal scores the earlier one has effort ordinal ≤ the
later one (so with equal scores, strictly lower effort always comes
first); `generate_resolution_suggestions` then returns the first
`max_suggestions` (default 5) of the ranked list, hence at most
`max_suggestions` suggestions. -/
theorem suggestion_ranking (l : List ResolutionSuggestion) (maxS : Nat) :
    List.Perm (rank_suggestions l) l ∧
    List.Sorted rankLe (rank_suggestions l) ∧
    (∀ i j : Fin (rank_suggestions l).length, i < j →
      ((rank_suggestions l).get i).score = ((rank_suggestions l).get j).score →
      effortOrder ((rank_suggestions l).get i).effort_level ≤
        effortOrder ((rank_suggestions l).get j).effort_level) ∧
    generate_resolution_suggestions_top l maxS = (rank_suggestions l).take maxS ∧
    (generate_resolution_suggestions_top l maxS).length ≤ maxS := by
  refine ⟨List.perm_insertionSort rankLe l, List.sorted_insertionSort rankLe l,
    ?_, rfl, ?_⟩
  · intro i j hij heq
    rcases (List.sorted_insertionSort rankLe l).rel_get_of_lt hij with h | ⟨_, h⟩
    · exact absurd heq (ne_of_gt h)
    · exact h
  · exact List.length_take_le maxS _

/-- Two equal-score suggestions with different efforts, used by the C6
witness: the high-effort one listed first. -/
def demoSuggestionHighEffort : ResolutionSuggestion :=
  ⟨"r2", "Split group g1", "split_group", ["s2"], [], 0.5, "high",
    "Affects 1 session"⟩

/-- See `demoSuggestionHighEffort`. -/
def demoSuggestionLowEffort : ResolutionSuggestion :=
  ⟨"r3", "Reschedule session s3", "reschedule", ["s3"], [], 0.5, "low",
    "Affects 1 session"⟩

theorem demo_rank_suggestions_length :
    (rank_suggestions
      [demoSuggestionHighEffort, demoSuggestionLowEffort]).length = 2 := by
  simp only [rank_suggestions, List.length_insertionSort]
  rfl

/-- C6, witness: on the concrete pair of equal-score suggestions the
ranked list puts the low-effort one first, and the returned list is capped
at 5. -/
theorem suggestion_ranking_witness :
    effortOrder (((rank_suggestions
        [demoSuggestionHighEffort, demoSuggestionLowEffort]).get
      ⟨0, by rw [demo_rank_suggestions_length]; omega⟩).effort_level) ≤
      effortOrder (((rank_suggestions
        [demoSuggestionHighEffort, demoSuggestionLowEffort]).get
      ⟨1, by rw [demo_rank_suggestions_length]; omega⟩).effort_level) ∧
    (generate_resolution_suggestions_top
      [demoSuggestionHighEffort, demoSuggestionLowEffort] 5).length ≤ 5 := by
  have hrank : rank_suggestions [demoSuggestionHighEffort, demoSuggestionLowEffort] =
      [demoSuggestionLowEffort, demoSuggestionHighEffort] := by
    norm_num [rank_suggestions, List.insertionSort, List.orderedInsert, rankLe,
      effortOrder, demoSuggestionHighEffort, demoSuggestionLowEffort]
    decide
  have h := suggestion_ranking [demoSuggestionHighEffort, demoSuggestionLowEffort] 5
  refine ⟨h.2.2.1 ⟨0, by rw [demo_rank_suggestions_length]; omega⟩
    ⟨1, by rw [demo_rank_suggestions_length]; omega⟩ (by simp [Fin.mk_lt_mk]) ?_,
    h.2.2.2.2⟩
  simp only [List.get_eq_getElem, hrank]
  simp [demoSuggestionHighEffort, demoSuggestionLowEffort]

theorem findAltTimesLoop_eq (session : ScheduledSessionModel)
    (all_sessions : List ScheduledSessionModel) :
    ∀ (slots : List (Nat × Nat)) (acc : List String), acc.length ≤ 5 →
      findAltTimesLoop session all_sessions slots acc =
        acc ++ ((slots.filter fun p =>
          notCurrentSlot session p.1 p.2 &&
            slotFree session all_sessions p.1 p.2).map
          fun p => timeDisplay p.1 p.2).take (5 - acc.length) := by
  intro slots
  induction slots with
  | nil => intro acc _; simp [findAltTimesLoop]
  | cons p rest ih =>
    rcases p with ⟨d, h⟩
    intro acc hacc
    rw [findAltTimesLoop]
    by_cases h5 : 5 ≤ acc.length
    · rw [if_pos h5]
      have h0 : 5 - acc.length = 0 := by omega
      rw [h0, List.take_zero, List.append_nil]
    · rw [if_neg h5]
      have hlt : acc.length < 5 := by omega
      by_cases hP : (notCurrentSlot session d h &&
          slotFree session all_sessions d h) = true
      · rw [if_pos hP]
        rw [ih (acc ++ [timeDisplay d h]) (by simp; omega)]
        rw [List.filter_cons_of_pos (by exact hP), List.map_cons]
        have hsucc : 5 - acc.length = (5 - (acc ++ [timeDisplay d h]).length) + 1 := by
          simp; omega
        rw [hsucc, List.take_succ_cons]
        simp
      · rw [if_neg hP]
        rw [ih acc hacc]
        rw [List.filter_cons_of_neg (by simpa using hP)]

/-- C4, amended: the effective `_find_alternative_times` iterates days
Monday–Friday and hours 9 through 16 (`range(9, 17)`) — not 8 through 17,
and without skipping hour 12 (no lunch break) — skipping only the session's
current slot; it returns exactly the first at most 5 slots, in day-major
hour-minor order, at which no other session shares the venue, the lecturer,
or any student group. -/
theorem alternative_times_characterization (session : ScheduledSessionModel)
    (all_sessions : List ScheduledSessionModel) :
    find_alternative_times session all_sessions =
      ((altTimesSlots.filter fun p =>
        notCurrentSlot session p.1 p.2 &&
          slotFree session all_sessions p.1 p.2).map
        fun p => timeDisplay p.1 p.2).take 5 ∧
    (find_alternative_times session all_sessions).length ≤ 5 := by
  have h := findAltTimesLoop_eq session all_sessions altTimesSlots [] (by simp)
  rw [find_alternative_times, h]
  simp only [List.nil_append, List.length_nil, Nat.sub_zero, eq_self_iff_true,
    true_and]
  exact List.length_take_le 5 _

/-- C4, counterexample: for a session at Monday 09:00 in an otherwise empty
schedule, the effective `_find_alternative_times` returns slots 10:00–14:00
on Monday — including 12:00, which the claim says is skipped for lunch —
and never offers 08:00, which the claim says is iterated; the finder
modelled on the claim's contract (hours 8–17 without 12) returns a
different list. -/
theorem alternative_times_lunch_not_skipped :
    find_alternative_times demoSession [demoSession] =
      ["Monday 10:00", "Monday 11:00", "Monday 12:00", "Monday 13:00",
        "Monday 14:00"] ∧
    specFindAlternativeTimes demoSession [demoSession] =
      ["Monday 08:00", "Monday 10:00", "Monday 11:00", "Monday 13:00",
        "Monday 14:00"] ∧
    ¬(find_alternative_times demoSession [demoSession] =
        specFindAlternativeTimes demoSession [demoSession]) ∧
    "Monday 12:00" ∈ find_alternative_times demoSession [demoSession] ∧
    ¬("Monday 08:00" ∈ find_alternative_times demoSession [demoSession]) := by
  refine ⟨by decide, by decide, by decide, by decide, by decide⟩

/-- C8, amended: the effective `_find_alternative_venues` returns exactly
the venues different from the session's current venue whose capacity is at
least the summed sizes of the attending groups and whose equipment contains
every required equipment tag of the session's course, sorted by capacity
ascending — but all of them: this definition applies no cap of 5. -/
theorem alternative_venues_characterization (session : ScheduledSessionModel)
    (venues : List VenueDict) (courses : List CourseDict)
    (groups : List StudentGroupDict) :
    List.Perm (find_alternative_venues session venues courses groups)
      (venues.filter (venueSuitable session
        (((courses.find? fun c => c.id == session.course_id).map
          (·.required_equipment)).getD [])
        (requiredCapacity groups session.student_groups))) ∧
    List.Sorted capLe (find_alternative_venues session venues courses groups) := by
  rw [find_alternative_venues]
  exact ⟨List.perm_insertionSort capLe _, List.sorted_insertionSort capLe _⟩

/-- Seven venues for the C8 counterexample: the session's current venue
`v1` and six alternatives, all suitable. -/
def demoVenues : List VenueDict :=
  [⟨"v1", 10, []⟩, ⟨"v2", 20, []⟩, ⟨"v3", 30, []⟩, ⟨"v4", 40, []⟩,
   ⟨"v5", 50, []⟩, ⟨"v6", 60, []⟩, ⟨"v7", 70, []⟩]

/-- C8, counterexample: with six suitable alternative venues the effective
`_find_alternative_venues` returns all six — more than the cap of 5 the
claim states. -/
theorem alternative_venues_exceed_cap :
    (find_alternative_venues demoSession demoVenues [] []).length = 6 ∧
    ¬((find_alternative_venues demoSession demoVenues [] []).length ≤ 5) := by
  refine ⟨by decide, by decide⟩

theorem calculate_severity_eq (f n : ℕ) :
    calculate_severity f n = min 1 ((f : ℚ) / 10 + (n : ℚ) / 20) := by
  unfold calculate_severity
  have hn : (0 : ℚ) ≤ (n : ℚ) / 20 := by positivity
  rcases le_or_lt ((f : ℚ) / 10) 1 with h | h
  · rw [min_eq_left h, min_comm]
  · rw [min_eq_right h.le, min_eq_right (by linarith : (1 : ℚ) ≤ 1 + (n : ℚ) / 20),
      eq_comm, min_eq_left (by linarith : (1 : ℚ) ≤ (f : ℚ) / 10 + (n : ℚ) / 20)]

theorem severity_of_mk (t : String) (f : ℕ) (ents : List String) :
    (mkConflictPattern t f ents).severity_score =
      min 1 (((mkConflictPattern t f ents).frequency : ℚ) / 10 +
        ((mkConflictPattern t f ents).entities.length : ℚ) / 20) := by
  simp [mkConflictPattern, calculate_severity_eq]

theorem mem_identify_conflict_patterns (conflicts : List ConflictDict)
    (p : ConflictPattern) :
    p ∈ identify_conflict_patterns conflicts ↔
      p ∈ typePatterns conflicts ++ entityPatterns conflicts :=
  (List.perm_insertionSort sevGe _).mem_iff

theorem entityConflictCount_le_occCount (conflicts : List ConflictDict)
    (e : String) : entityConflictCount conflicts e ≤ entityOccCount conflicts e := by
  induction conflicts with
  | nil => simp [entityConflictCount, entityOccCount]
  | cons c rest ih =>
    unfold entityConflictCount entityOccCount at *
    simp only [List.map_cons, List.flatten_cons, List.count_append,
      List.filter_cons]
    by_cases hm : e ∈ c.affected_entities
    · rw [if_pos (by simpa using hm)]
      have hpos : 0 < c.affected_entities.count e := List.count_pos_iff.mpr hm
      simp only [List.length_cons]
      omega
    · rw [if_neg (by simpa using hm)]
      have hzero : c.affected_entities.count e = 0 := List.count_eq_zero.mpr hm
      omega

/-- C7: in the analyzer's pattern list
(i) every pattern's severity equals min(1, frequency/10 + |entities|/20);
(ii) for every conflict kind (any string not of the reserved hotspot-name
form) a pattern of that kind is reported exactly when the kind occurs at
least twice — in particular never for a kind occurring once; and
(iii) for every entity appearing in at least 3 conflicts an
`entity_hotspot_` pattern for that entity is reported. -/
theorem conflict_patterns_characterization (conflicts : List ConflictDict) :
    (∀ p ∈ identify_conflict_patterns conflicts,
      p.severity_score =
        min 1 ((p.frequency : ℚ) / 10 + (p.entities.length : ℚ) / 20)) ∧
    (∀ t : String, (∀ e : String, ¬("entity_hotspot_" ++ e = t)) →
      ((∃ p ∈ identify_conflict_patterns conflicts, p.conflict_type = t) ↔
        2 ≤ countType conflicts t)) ∧
    (∀ e : String, 3 ≤ entityConflictCount conflicts e →
      ∃ p ∈ identify_conflict_patterns conflicts,
        p.conflict_type = "entity_hotspot_" ++ e ∧ p.entities = [e]) := by
  refine ⟨?_, ?_, ?_⟩
  · intro p hp
    rw [mem_identify_conflict_patterns, List.mem_append] at hp
    rcases hp with hp | hp
    · rcases List.mem_filterMap.mp hp with ⟨t, _, hft⟩
      by_cases hc : 2 ≤ countType conflicts t
      · rw [if_pos hc] at hft
        rw [← Option.some.inj hft]; exact severity_of_mk ..
      · rw [if_neg hc] at hft; exact absurd hft (by simp)
    · rcases List.mem_filterMap.mp hp with ⟨e, _, hfe⟩
      by_cases hc : 3 ≤ entityOccCount conflicts e
      · rw [if_pos hc] at hfe
        rw [← Option.some.inj hfe]; exact severity_of_mk ..
      · rw [if_neg hc] at hfe; exact absurd hfe (by simp)
  · intro t ht
    constructor
    · rintro ⟨p, hp, htype⟩
      rw [mem_identify_conflict_patterns, List.mem_append] at hp
      rcases hp with hp | hp
      · rcases List.mem_filterMap.mp hp with ⟨t2, _, hft⟩
        by_cases hc : 2 ≤ countType conflicts t2
        · rw [if_pos hc] at hft
          rw [← Option.some.inj hft] at htype
          simp only [mkConflictPattern] at htype
          rwa [htype] at hc
        · rw [if_neg hc] at hft; exact absurd hft (by simp)
      · rcases List.mem_filterMap.mp hp with ⟨e, _, hfe⟩
        by_cases hc : 3 ≤ entityOccCount conflicts e
        · rw [if_pos hc] at hfe
          rw [← Option.some.inj hfe] at htype
          simp only [mkConflictPattern] at htype
          exact absurd htype (ht e)
        · rw [if_neg hc] at hfe; exact absurd hfe (by simp)
    · intro hc
      have hpos : 0 < (conflicts.filter fun c => decide (effType c = t)).length := by
        unfold countType at hc; omega
      rcases List.exists_mem_of_length_pos hpos with ⟨c, hcmem⟩
      have hcf := List.mem_filter.mp hcmem
      refine ⟨mkConflictPattern t (countType conflicts t)
        (typePatternEntities conflicts t), ?_, by simp [mkConflictPattern]⟩
      rw [mem_identify_conflict_patterns, List.mem_append]
      left
      refine List.mem_filterMap.mpr ⟨t, (mem_firstDedup _ _).mpr ?_, by rw [if_pos hc]⟩
      exact List.mem_map.mpr ⟨c, hcf.1, by simpa using hcf.2⟩
  · intro e hce
    have hocc : 3 ≤ entityOccCount conflicts e :=
      le_trans hce (entityConflictCount_le_occCount conflicts e)
    have hmem : e ∈ (conflicts.map (·.affected_entities)).flatten :=
      List.count_pos_iff.mp (by unfold entityOccCount at hocc; omega)
    refine ⟨mkConflictPattern ("entity_hotspot_" ++ e) (entityOccCount conflicts e)
      [e], ?_, by simp [mkConflictPattern], by simp [mkConflictPattern]⟩
    rw [mem_identify_conflict_patterns, List.mem_append]
    right
    exact List.mem_filterMap.mpr
      ⟨e, (mem_firstDedup _ _).mpr hmem, by rw [if_pos hocc]⟩

theorem hotspot_name_ne_of_short {t : String} (hlen : t.length < 15) :
    ∀ e : String, ¬("entity_hotspot_" ++ e = t) := by
  intro e he
  have hl := congrArg String.length he
  rw [String.length_append] at hl
  have h15 : ("entity_hotspot_" : String).length = 15 := rfl
  omega

/-- Three conflicts for the C7 witness: two of kind `venue_clash`, one of
kind `misc`, all touching entity `x`. -/
def demoConflicts : List ConflictDict :=
  [{ ConflictDict.empty with type := some "venue_clash", affected_entities := ["x"] },
   { ConflictDict.empty with type := some "venue_clash", affected_entities := ["x"] },
   { ConflictDict.empty with type := some "misc", affected_entities := ["x"] }]

/-- C7, witness: on the concrete conflict list, a `venue_clash` pattern
(frequency 2) is reported and satisfies the severity formula, no `misc`
pattern is reported (frequency 1), and entity `x` (3 conflicts) yields an
entity-hotspot pattern. -/
theorem conflict_patterns_characterization_witness :
    (∃ p ∈ identify_conflict_patterns demoConflicts,
      p.conflict_type = "venue_clash" ∧
      p.severity_score =
        min 1 ((p.frequency : ℚ) / 10 + (p.entities.length : ℚ) / 20)) ∧
    ¬(∃ p ∈ identify_conflict_patterns demoConflicts,
      p.conflict_type = "misc") ∧
    (∃ p ∈ identify_conflict_patterns demoConflicts,
      p.conflict_type = "entity_hotspot_" ++ "x" ∧ p.entities = ["x"]) := by
  have h := conflict_patterns_characterization demoConflicts
  refine ⟨?_, fun hex => ?_, h.2.2 "x" (by decide)⟩
  · rcases (h.2.1 "venue_clash" (hotspot_name_ne_of_short (by decide))).mpr
      (by decide) with ⟨p, hp, htype⟩
    exact ⟨p, hp, htype, h.1 p hp⟩
  · have h2 := (h.2.1 "misc" (hotspot_name_ne_of_short (by decide))).mp hex
    have h1 : countType demoConflicts "misc" = 1 := by decide
    omega

/-- C10: `solve` is total by construction (it is the function of the
pipeline outcome, the exceptional case included); when the internal
pipeline raises with message `msg`, the caught-exception branch returns a
solution with an empty session list, score 0, `is_feasible = false`, and a
single conflict record of type `solver_error` carrying the message. -/
theorem solve_exception_result (msg : String) :
    solve (Except.error msg) = ⟨[], 0, false, [solverErrorConflict msg], []⟩ ∧
    (solverErrorConflict msg).type = some "solver_error" ∧
    (solverErrorConflict msg).message = some msg :=
  ⟨rfl, rfl, rfl⟩

end Timetiba
